import Mathlib

/-!
Shallow embedding of `sysinfo_widget.py`, a one-shot system-status reporter.

The program samples CPU load, CPU temperature, RAM, zram and swap usage from
OS interfaces and prints one line of (optionally colored) text.  The OS
interfaces (`psutil.virtual_memory()`, `/proc/meminfo`, `/sys/block`,
`/proc/swaps`, the `sensors` tool) are modelled as explicit inputs:

* `VirtualMemory` models the `psutil.virtual_memory()` result (bytes).
* `MemInfo` models the dict parsed from `/proc/meminfo`; application of the
  function models `meminfo.get(key, 0)` (values in kB); `Option MemInfo`
  models the try/except around reading and parsing the file.
* The block-device tree is a list of device names plus a function giving, per
  device, the contents of `compr_data_size` and `orig_data_size` (bytes);
  `none` models an I/O error on that device (the device is skipped).
* `/proc/swaps` data lines (after the header) are pre-parsed `SwapLine`
  records; `Option` models an unreadable/malformed file.
* Python `//` on possibly-negative ints is floor division, modelled by
  `Int.fdiv`; on nonnegative values plain `Nat` division is used.
* Python floats are modelled as exact rationals; `round(x, 1)` is modelled by
  `round1` (rounding to one decimal place); Python's `str(...)` rendering of
  numbers inside f-strings is abstracted by `numStr` (no claim depends on the
  digit rendering).  A Python division that can raise `ZeroDivisionError` is
  modelled by `pyDiv`, and the resulting possible crash of `main` by an
  `Option` result (`none` = uncaught exception, no line printed).
-/

/-- Result of `psutil.virtual_memory()`: the fields the program reads,
in bytes. -/
structure VirtualMemory where
  total : Nat
  available : Nat
  cached : Nat
deriving Repr

/-- The dict built from `/proc/meminfo`: applying the function models
`meminfo.get(key, 0)` (values in kilobytes, as in the file). -/
def MemInfo : Type := String → Nat

/-- Result of `get_ram_usage`: `(used_mb, total_mb, cached_mb)`.  `cached`
is an `Int` because the meminfo computation can go negative in Python. -/
structure MemoryUsage where
  used : Int
  total : Int
  cached : Int
deriving Repr

/-- `get_ram_usage` (source lines 22-38).
`used_mb = (vm.total - vm.available) // 1024**2`,
`total_mb = vm.total // 1024**2`;
`cached` comes from `/proc/meminfo` as
`Cached + SReclaimable - Shmem` (kB) when the file is readable, else from the
fallback `vm.cached // 1024` (kB); then `cached_mb = cached // 1024`. -/
def get_ram_usage (vm : VirtualMemory) (meminfo : Option MemInfo) : MemoryUsage :=
  let cached : Int :=
    match meminfo with
    | some m => (m "Cached" : Int) + (m "SReclaimable" : Int) - (m "Shmem" : Int)
    | none => ((vm.cached / 1024 : Nat) : Int)
  { used := Int.fdiv ((vm.total : Int) - (vm.available : Int)) (1024 ^ 2)
    total := Int.fdiv (vm.total : Int) (1024 ^ 2)
    cached := Int.fdiv cached 1024 }

/-- One data line of `/proc/swaps` (header already skipped), pre-parsed:
`path` is column 0 (`parts[0]`), `size` column 2 and `used` column 3 (both
in kilobytes).  The `Type` and `Priority` columns are never read by the
program and are omitted. -/
structure SwapLine where
  path : String
  size : Nat
  used : Nat
deriving Repr

/-- Python's `s.startswith(pre)`: prefix test on the character sequence.
(Implemented over `List Char` rather than `String.startsWith` so that it
evaluates by kernel reduction.) -/
def pyStartsWith (s pre : String) : Bool := pre.data.isPrefixOf s.data

/-- Python's `s.endswith(post)`: suffix test on the character sequence. -/
def pyEndsWith (s post : String) : Bool := post.data.isSuffixOf s.data

/-- Substring occurrence on character lists (helper for Python's `in`). -/
def infixOf (needle : List Char) : List Char → Bool
  | [] => needle.isPrefixOf []
  | c :: t => needle.isPrefixOf (c :: t) || infixOf needle t

/-- Substring test: Python's `needle in s`. -/
def occursIn (needle s : String) : Bool := infixOf needle.data s.data

/-- Python's `'zram' in l` on a raw `/proc/swaps` data line: of such a line
only the device path can contain the substring `zram` (the Type column is
`partition`/`file` and the remaining columns are numerals), so the test is
modelled on the parsed path. -/
def SwapLine.hasZram (l : SwapLine) : Bool := occursIn "zram" l.path

/-- The device names found under `/sys/block/` whose name starts with
`zram` (the loop filter in `get_zram_usage`). -/
def zramDevices (blockDevices : List String) : List String :=
  blockDevices.filter (fun d => pyStartsWith d "zram")

/-- The per-device accumulation loop of `get_zram_usage`: sums the
`(compr_data_size, orig_data_size)` byte counters over the zram devices,
skipping devices whose files fail to read (`devFiles d = none`). -/
def deviceSums (blockDevices : List String) (devFiles : String → Option (Nat × Nat)) :
    Nat × Nat :=
  (zramDevices blockDevices).foldl
    (fun acc z =>
      match devFiles z with
      | some p => (acc.1 + p.1, acc.2 + p.2)
      | none => acc)
    (0, 0)

/-- The `/proc/swaps` fallback of `get_zram_usage` (source lines 61-70):
filter data lines containing `zram`, sum `parts[3]` (used) and `parts[2]`
(size), and return `(used_kb, total_kb)` when `total_kb > 0`. -/
def zramSwapsFallback (swaps : Option (List SwapLine)) : Option (Nat × Nat) :=
  match swaps with
  | none => none
  | some lines =>
    let zram_lines := lines.filter SwapLine.hasZram
    let used_kb := (zram_lines.map SwapLine.used).sum
    let total_kb := (zram_lines.map SwapLine.size).sum
    if 0 < total_kb then some (used_kb, total_kb) else none

/-- `get_zram_usage` (source lines 40-72).  Primary path: if some zram block
device exists (`found`) and the summed original byte size is positive, return
the byte sums divided by 1024 (truncating).  Otherwise fall through to the
`/proc/swaps` fallback. -/
def get_zram_usage (blockDevices : List String) (devFiles : String → Option (Nat × Nat))
    (swaps : Option (List SwapLine)) : Option (Nat × Nat) :=
  let found := !(zramDevices blockDevices).isEmpty
  let sums := deviceSums blockDevices devFiles
  if found && decide (0 < sums.2) then
    some (sums.1 / 1024, sums.2 / 1024)
  else
    zramSwapsFallback swaps

/-- `get_swap_usage` (source lines 74-86): first `/proc/swaps` data line whose
path ends in `swap`, equals `/swapfile` or contains `/swap/`; returns its
`(used, total)` in kB.  `none` models both an unreadable file and the
no-matching-entry case. -/
def get_swap_usage (swaps : Option (List SwapLine)) : Option (Nat × Nat) :=
  match swaps with
  | none => none
  | some lines =>
    (lines.find? fun l =>
        pyEndsWith l.path "swap" || l.path == "/swapfile" || occursIn "/swap/" l.path).map
      fun l => (l.used, l.size)

/-! ## Presentation formatter -/

/-- The ANSI color wrapper used throughout the source:
`"\x1b[" + str(n) + "m" + s + "\x1b[0m"`. -/
def esc (n : Nat) (s : String) : String :=
  "\x1b[" ++ toString n ++ "m" ++ s ++ "\x1b[0m"

/-- Rendering of a Python number inside an f-string (`str(val)`).  The exact
digit rendering of Python numerals is abstracted; no claim depends on it. -/
def numStr (q : ℚ) : String := toString q

/-- Python `round(q, 1)`: round to one decimal place.  (Python rounds float
ties to even; ties are modelled by Mathlib's `round` since no claim turns on
a tie.) -/
def round1 (q : ℚ) : ℚ := ((round (q * 10) : ℤ) : ℚ) / 10

/-- Python `/` on numbers: raises `ZeroDivisionError` (modelled `none`) on a
zero divisor. -/
def pyDiv (a b : ℚ) : Option ℚ := if b = 0 then none else some (a / b)

/-- Python `int(·)` on a float: truncation toward zero. -/
def pyInt (q : ℚ) : Int := Int.tdiv q.num (q.den : Int)

/-- `color` (source lines 88-95): threshold coloring.  The source stringifies
`val` itself (`f"...{val}..."`); that rendered text is the `valStr`
argument. -/
def color (valStr : String) (val warn crit : ℚ) (minimal : Bool) : String :=
  if minimal then valStr
  else if crit ≤ val then esc 31 valStr
  else if warn ≤ val then esc 33 valStr
  else esc 32 valStr

/-- `color_ratio` (source lines 97-105): inverted coloring for compression
ratios. -/
def color_ratio (valStr : String) (val : ℚ) (minimal : Bool) : String :=
  if minimal then valStr
  else if val < 2 then esc 31 valStr
  else if val < 3 then esc 33 valStr
  else esc 32 valStr

/-- `format_gb` (source lines 107-108): `round(kb / 1024 / 1024, 1)`. -/
def format_gb (kb : Nat) : ℚ := round1 ((kb : ℚ) / 1024 / 1024)

/-! ## Orchestrator (`main`, source lines 110-189) -/

/-- The recognized boolean command-line options. -/
structure Config where
  minimal : Bool
  ratio : Bool
  saved : Bool
  no_cpu : Bool
  no_cpu_temp : Bool
  no_ram : Bool
  no_ram_cache : Bool
  no_zram : Bool
  no_swap : Bool
deriving Repr

/-- The external inputs `main` can consult in one run.  `cpuPercent` is the
value `psutil.cpu_percent(interval=0.5)` would return; `sensorsTemp` is the
result of `get_cpu_temp` (the `sensors` subprocess and its regex parse are
abstracted as an external input, `none` = tool missing / no match). -/
structure World where
  cpuPercent : ℚ
  sensorsTemp : Option ℚ
  vm : VirtualMemory
  meminfo : Option MemInfo
  blockDevices : List String
  devFiles : String → Option (Nat × Nat)
  swaps : Option (List SwapLine)

/-- The keys of the `icon` lambda's dict (source lines 143-145). -/
inductive Label where
  | cpu
  | temp
  | ram
  | zram
deriving Repr, DecidableEq

/-- The label string passed to `icon` (returned as-is in minimal mode). -/
def Label.str : Label → String
  | .cpu => "cpu"
  | .temp => "temp"
  | .ram => "ram"
  | .zram => "zram"

/-- The glyph the `icon` dict maps each label to. -/
def Label.glyph : Label → String
  | .cpu => "🧠"
  | .temp => "🌡"
  | .ram => "💾"
  | .zram => "📦"

/-- The `icon` lambda (source lines 143-145). -/
def icon (cfg : Config) (l : Label) : String :=
  if cfg.minimal then l.str else l.glyph

/-- The ratio sub-fragment's value (source lines 169-172): requested and
computed iff `show_ratio and z_used_kb > 0`; inner `Option` is the Python
division (cannot fail here since the guard gives `z_used_kb > 0`). -/
def ratioPart (cfg : Config) (z_used_kb z_total_kb : Nat) : Option (Option ℚ) :=
  if cfg.ratio && decide (0 < z_used_kb) then
    some ((pyDiv (z_total_kb : ℚ) (z_used_kb : ℚ)).map round1)
  else none

/-- The saved-percentage sub-fragment's value (source lines 173-175):
requested iff `show_saved and z_used_kb > 0`; the inner `Option` is the
Python division `z_used_kb / z_total_kb`, which raises `ZeroDivisionError`
when `z_total_kb = 0`.  `saved = 100 * (1 - used/total)`, rounded to one
decimal when appended. -/
def savedPart (cfg : Config) (z_used_kb z_total_kb : Nat) : Option (Option ℚ) :=
  if cfg.saved && decide (0 < z_used_kb) then
    some ((pyDiv (z_used_kb : ℚ) (z_total_kb : ℚ)).map
      fun d => round1 (100 * (1 - d)))
  else none

/-- The zram value string (source lines 165-175): base `used/totalGB`, then
the optional ratio and saved sub-fragments.  `none` = `ZeroDivisionError`
raised while computing a sub-fragment. -/
def zram_str (cfg : Config) (z : Nat × Nat) : Option String :=
  let base := numStr (format_gb z.1) ++ "/" ++ numStr (format_gb z.2) ++ "GB"
  let afterRatio : Option String :=
    match ratioPart cfg z.1 z.2 with
    | some (some v) => some (base ++ " (" ++ color_ratio (numStr v) v cfg.minimal ++ ":1)")
    | some none => none
    | none => some base
  match afterRatio with
  | none => none
  | some s =>
    match savedPart cfg z.1 z.2 with
    | some (some v) => some (s ++ " Saved " ++ numStr v ++ "%")
    | some none => none
    | none => some s

/-- The plain (uncolored) swap value string `used/totalGB`
(source lines 181-184). -/
def swap_plain (s : Nat × Nat) : String :=
  numStr (format_gb s.1) ++ "/" ++ numStr (format_gb s.2) ++ "GB"

/-- The swap value string after the any-usage-is-critical coloring
(source lines 185-186). -/
def swap_value_str (cfg : Config) (s : Nat × Nat) : String :=
  let str := swap_plain s
  if 0 < s.1 then (if !cfg.minimal then esc 31 str else str) else str

/-- The CPU fragment list: one fragment when the CPU value is present, none
otherwise (source lines 149-150). -/
def cpuPart (cfg : Config) (cpu : Option ℚ) : List String :=
  match cpu with
  | some c => [icon cfg .cpu ++ " " ++ color (numStr c) c 70 90 cfg.minimal ++ "%"]
  | none => []

/-- The temperature fragment list (source lines 152-153): value truncated to
an integer, thresholds 70/85. -/
def tempPart (cfg : Config) (temp : Option ℚ) : List String :=
  match temp with
  | some t =>
    [icon cfg .temp ++ " " ++
      color (numStr (pyInt t : ℚ)) (pyInt t : ℚ) 70 85 cfg.minimal ++ "°C"]
  | none => []

/-- The RAM fragment list (source lines 155-162): GB-scaled values, used
colored against 75%/90% of total, optional cache suffix. -/
def ramPart (cfg : Config) (r : Option MemoryUsage) : List String :=
  match r with
  | some m =>
    let used_gb := round1 ((m.used : ℚ) / 1024)
    let total_gb := round1 ((m.total : ℚ) / 1024)
    let cached_gb := round1 ((m.cached : ℚ) / 1024)
    let ram_str :=
      color (numStr used_gb) used_gb (total_gb * (3 / 4)) (total_gb * (9 / 10))
          cfg.minimal ++ "/" ++ numStr total_gb ++ "GB"
    let ram_str :=
      if !cfg.no_ram_cache then ram_str ++ " (cache " ++ numStr cached_gb ++ "GB)"
      else ram_str
    [icon cfg .ram ++ " " ++ ram_str]
  | none => []

/-- The zram fragment list (source lines 164-178): a value fragment when the
reader returned a pair (`none` = crash inside its sub-fragments), else the
`icon -` placeholder unless zram is hidden. -/
def zramPart (cfg : Config) (zres : Option (Nat × Nat)) : Option (List String) :=
  match zres with
  | some z => (zram_str cfg z).map fun s => [icon cfg .zram ++ " " ++ s]
  | none => some (if !cfg.no_zram then [icon cfg .zram ++ " -"] else [])

/-- The swap fragment list (source lines 180-187). -/
def swapPart (cfg : Config) (s : Option (Nat × Nat)) : List String :=
  match s with
  | some sw => [(if !cfg.minimal then "💽" else "SWP") ++ " " ++ swap_value_str cfg sw]
  | none => []

/-- Reader invocations gated by the hide flags (source lines 133-141). -/
def readCpu (cfg : Config) (w : World) : Option ℚ :=
  if !cfg.no_cpu then some w.cpuPercent else none

/-- `get_cpu_temp() if not hide_cpu_temp else None`. -/
def readTemp (cfg : Config) (w : World) : Option ℚ :=
  if !cfg.no_cpu_temp then w.sensorsTemp else none

/-- `get_swap_usage() if not hide_swap else None`. -/
def readSwap (cfg : Config) (w : World) : Option (Nat × Nat) :=
  if !cfg.no_swap then get_swap_usage w.swaps else none

/-- RAM triple or `None` (source lines 136-139). -/
def readRam (cfg : Config) (w : World) : Option MemoryUsage :=
  if !cfg.no_ram then some (get_ram_usage w.vm w.meminfo) else none

/-- `get_zram_usage() if not hide_zram else None`. -/
def readZram (cfg : Config) (w : World) : Option (Nat × Nat) :=
  if !cfg.no_zram then get_zram_usage w.blockDevices w.devFiles w.swaps else none

/-- The `output_parts` list of `main`, in source order: CPU, temperature,
RAM, zram, swap.  `none` = the run crashed with `ZeroDivisionError` while
building the zram fragment. -/
def output_parts (cfg : Config) (w : World) : Option (List String) :=
  match zramPart cfg (readZram cfg w) with
  | none => none
  | some zp =>
    some (cpuPart cfg (readCpu cfg w) ++ tempPart cfg (readTemp cfg w) ++
      ramPart cfg (readRam cfg w) ++ zp ++ swapPart cfg (readSwap cfg w))

/-- The line `main` prints (`" ".join(output_parts)`); `print` appends the
final newline.  `none` = the run crashed and printed nothing.  (Named
`main'` because Lean reserves `main` for program entry points.) -/
def main' (cfg : Config) (w : World) : Option String :=
  (output_parts cfg w).map (String.intercalate " ")

/-! ## Concrete inputs used in counterexamples and witnesses -/

/-- A `/proc/meminfo` dict with `Shmem = 2048` kB and every other field `0`
(so `Shmem > Cached + SReclaimable`). -/
def mi0 : MemInfo := fun k => if k = "Shmem" then 2048 else 0

/-- A virtual-memory sample: 2 GiB total, 1 GiB available, no cache. -/
def vm0 : VirtualMemory := ⟨2 ^ 31, 2 ^ 30, 0⟩

/-- Device files of a zram device whose counters read as zero bytes. -/
def dfZero : String → Option (Nat × Nat) := fun _ => some (0, 0)

/-- A `/proc/swaps` data line for an active zram swap area: 100 kB size,
50 kB used. -/
def zramLine : SwapLine := ⟨"/dev/zram0", 100, 50⟩

/-- Device files of `zram0` reading 2048 compressed / 512 original bytes
(original positive in bytes, but `512 // 1024 = 0` kB). -/
def df10 : String → Option (Nat × Nat) :=
  fun d => if d = "zram0" then some (2048, 512) else none

/-- Flags `--minimal --saved --no-cpu --no-cpu-temp --no-ram --no-ram-cache
--no-swap` (zram shown, saved percentage requested). -/
def cfg10 : Config := ⟨true, false, true, true, true, true, true, false, true⟩

/-- A world containing only the `zram0` device of `df10`. -/
def w10 : World := ⟨0, none, vm0, none, ["zram0"], df10, some []⟩

/-- A run with no flags at all (everything shown, normal mode). -/
def cfgDefault : Config := ⟨false, false, false, false, false, false, false, false, false⟩

/-- Flags `--ratio --saved` only. -/
def cfgRS : Config := ⟨false, true, true, false, false, false, false, false, false⟩

/-! ## Theorems -/

/-- Helper: `Int.fdiv` on two natural-number casts is natural division. -/
theorem fdiv_natCast (m n : Nat) : Int.fdiv (m : Int) (n : Int) = ((m / n : Nat) : Int) :=
  (Int.ofNat_fdiv m n).symm

/-- C1 counterexample: with every meminfo field `0` except `Shmem = 2048`
(so `Shmem > Cached + SReclaimable`), `get_ram_usage` returns the negative
cached value `-2` MB — the subtraction is not clamped at zero. -/
theorem c1_cached_negative :
    mi0 "Cached" + mi0 "SReclaimable" < mi0 "Shmem" ∧
    (get_ram_usage vm0 (some mi0)).cached = -2 := by
  constructor
  · decide
  · rfl

/-- C1 (amended): the cached component of the RAM reader is nonnegative
provided that, when `/proc/meminfo` is readable, its `Shmem` field does not
exceed `Cached + SReclaimable`; in the fallback case it is always
nonnegative.  (The claim as stated fails: the primary computation
`Cached + SReclaimable - Shmem` is returned without clamping, see
`c1_cached_negative`.) -/
theorem c1_cached_nonneg (vm : VirtualMemory) (mi : Option MemInfo)
    (h : ∀ m, mi = some m → m "Shmem" ≤ m "Cached" + m "SReclaimable") :
    0 ≤ (get_ram_usage vm mi).cached := by
  unfold get_ram_usage
  cases mi with
  | none =>
    simp only
    rw [show ((1024 : Int)) = ((1024 : Nat) : Int) by norm_num, fdiv_natCast]
    exact Int.ofNat_nonneg _
  | some m =>
    have hm := h m rfl
    simp only
    have hnn : 0 ≤ (m "Cached" : Int) + (m "SReclaimable" : Int) - (m "Shmem" : Int) := by
      have := Int.ofNat_le.mpr hm
      push_cast at this ⊢
      linarith
    set a : Int := (m "Cached" : Int) + (m "SReclaimable" : Int) - (m "Shmem" : Int) with ha
    rw [← Int.toNat_of_nonneg hnn,
      show ((1024 : Int)) = ((1024 : Nat) : Int) by norm_num, fdiv_natCast]
    exact Int.ofNat_nonneg _

/-- C1 witness: concrete instance of `c1_cached_nonneg` (unreadable
meminfo). -/
theorem c1_cached_nonneg_inst : 0 ≤ (get_ram_usage vm0 none).cached :=
  c1_cached_nonneg vm0 none (fun _ hm => nomatch hm)

/-- C2 counterexample: with the single device `zram0` present (so
`zramDevices ≠ []`) but its counters reading zero, the reader's result does
depend on `/proc/swaps`: with an active zram swap line it returns that
line's `(used, size)`, without it it returns nothing — so the
active-swap-areas fallback is consulted even though a zram block device
exists, refuting the claim that the fallback runs only when no such device
is present. -/
theorem c2_fallback_despite_device :
    zramDevices ["zram0"] = ["zram0"] ∧
    deviceSums ["zram0"] dfZero = (0, 0) ∧
    get_zram_usage ["zram0"] dfZero (some [zramLine]) = some (50, 100) ∧
    get_zram_usage ["zram0"] dfZero none = none := by
  refine ⟨rfl, rfl, ?_, rfl⟩
  decide

/-- C2 (amended): the reader's result is determined solely by the per-device
counters — namely, it is their sums converted to kB — whenever at least one
zram block device exists AND the summed original byte size is positive; when
a device exists but the summed original size is not positive, the
`/proc/swaps` fallback is consulted after all (see
`c2_fallback_despite_device`). -/
theorem c2_primary_path (blockDevices : List String)
    (devFiles : String → Option (Nat × Nat)) (swaps : Option (List SwapLine))
    (h1 : zramDevices blockDevices ≠ [])
    (h2 : 0 < (deviceSums blockDevices devFiles).2) :
    get_zram_usage blockDevices devFiles swaps =
      some ((deviceSums blockDevices devFiles).1 / 1024,
        (deviceSums blockDevices devFiles).2 / 1024) := by
  unfold get_zram_usage
  have hne : (zramDevices blockDevices).isEmpty = false := by
    simpa [List.isEmpty_iff] using h1
  simp [hne, h2]

/-- C2 witness: concrete instance of `c2_primary_path` — the `zram0` device
of `df10` alone determines the result, the (unreadable) swaps file is not
consulted. -/
theorem c2_primary_path_inst :
    get_zram_usage ["zram0"] df10 none = some (2, 0) := by
  rw [c2_primary_path ["zram0"] df10 none (by decide) (by decide)]
  decide

/-- C4 counterexample: the claimed iff fails at a reachable reader result.
With `--ratio --saved` (`cfgRS`) and the reader result `(2, 0)` — which
`get_zram_usage` does return, for a `zram0` device reading 2048 compressed /
512 original bytes — the `saved` option is enabled and the compressed size
is positive, yet no saved sub-fragment is present: the saved computation is
requested but its division raises `ZeroDivisionError`
(`savedPart … = some none`) and the whole zram value string is never built
(`zram_str … = none`). -/
theorem c4_saved_crash :
    cfgRS.saved = true ∧ 0 < (2 : Nat) ∧
    get_zram_usage ["zram0"] df10 (some []) = some (2, 0) ∧
    savedPart cfgRS 2 0 = some none ∧
    zram_str cfgRS (2, 0) = none := by
  refine ⟨rfl, by decide, by decide, ?_, ?_⟩
  · simp [savedPart, pyDiv, cfgRS]
  · simp [zram_str, ratioPart, savedPart, pyDiv, cfgRS]

/-- C4 (amended): for reader results whose original size is positive, the
saved-percentage sub-fragment is computed (and appended by `zram_str`) if
and only if the `saved` option is enabled and the compressed size is
positive, and its value is `100 * (1 - compressed/original)` rounded to one
decimal place.  (For the reachable reader results with `original = 0` the
claimed iff fails: the computation raises `ZeroDivisionError` and the run
aborts with no fragment at all — see `c4_saved_crash`.) -/
theorem c4_saved_fragment (cfg : Config) (c o : Nat) (v : ℚ) (h : 0 < o) :
    savedPart cfg c o = some (some v) ↔
      cfg.saved = true ∧ 0 < c ∧ v = round1 (100 * (1 - (c : ℚ) / (o : ℚ))) := by
  unfold savedPart pyDiv
  have hoq : ((o : ℚ)) ≠ 0 := Nat.cast_ne_zero.mpr h.ne'
  cases hs : cfg.saved
  · simp
  · by_cases hc : 0 < c
    · simp [hc, hoq, eq_comm]
    · simp [hc]

/-- C4 witness: with `--ratio --saved` and reader result `(102400, 409600)`
kB, the saved percentage is `75`. -/
theorem c4_saved_fragment_inst : savedPart cfgRS 102400 409600 = some (some 75) :=
  (c4_saved_fragment cfgRS 102400 409600 75 (by decide)).mpr
    ⟨rfl, by decide, by norm_num [round1, round_eq]⟩

/-- C5: when zram is not hidden and the reader returned nothing, the zram
fragment is the icon (package glyph in normal mode, the literal tag `zram`
in minimal mode) followed by a dash; every other metric contributes no
fragment at all when its value is absent. -/
theorem c5_zram_placeholder (cfg : Config) (h : cfg.no_zram = false) :
    zramPart cfg none = some [icon cfg .zram ++ " -"] ∧
    icon cfg .zram = (if cfg.minimal then "zram" else "📦") ∧
    cpuPart cfg none = [] ∧ tempPart cfg none = [] ∧
    ramPart cfg none = [] ∧ swapPart cfg none = [] := by
  refine ⟨by simp [zramPart, h], ?_, rfl, rfl, rfl, rfl⟩
  cases hm : cfg.minimal <;> simp [icon, hm, Label.str, Label.glyph]

/-- C5 witness: `c5_zram_placeholder` at the no-flags configuration. -/
theorem c5_zram_placeholder_inst :
    zramPart cfgDefault none = some [icon cfgDefault .zram ++ " -"] ∧
    icon cfgDefault .zram = (if cfgDefault.minimal then "zram" else "📦") ∧
    cpuPart cfgDefault none = [] ∧ tempPart cfgDefault none = [] ∧
    ramPart cfgDefault none = [] ∧ swapPart cfgDefault none = [] :=
  c5_zram_placeholder cfgDefault rfl

/-- C6: the swap fragment's value text is wrapped in the critical (red)
marker exactly when some swap is used and the mode is not minimal; with zero
used, or in minimal mode, it stays plain. -/
theorem c6_swap_coloring (cfg : Config) (s : Nat × Nat) :
    (0 < s.1 → cfg.minimal = false → swap_value_str cfg s = esc 31 (swap_plain s)) ∧
    (0 < s.1 → cfg.minimal = true → swap_value_str cfg s = swap_plain s) ∧
    (s.1 = 0 → swap_value_str cfg s = swap_plain s) := by
  refine ⟨fun h1 h2 => ?_, fun h1 h2 => ?_, fun h0 => ?_⟩ <;>
    simp [swap_value_str, *]

/-- C6 witness: 10 kB used out of 1000 kB in normal mode is wrapped red. -/
theorem c6_swap_coloring_inst :
    swap_value_str cfgDefault (10, 1000) = esc 31 (swap_plain (10, 1000)) :=
  (c6_swap_coloring cfgDefault (10, 1000)).1 (by decide) rfl

/-- C7: for ascending thresholds `warn ≤ crit`, `color` wraps the value's
text in the ok (green) marker below `warn`, the warning (yellow) marker in
`[warn, crit)` and the critical (red) marker at or above `crit`; in minimal
mode it returns the bare value text unchanged. -/
theorem c7_color_thresholds (valStr : String) (val warn crit : ℚ) (h : warn ≤ crit) :
    color valStr val warn crit true = valStr ∧
    (val < warn → color valStr val warn crit false = esc 32 valStr) ∧
    (warn ≤ val → val < crit → color valStr val warn crit false = esc 33 valStr) ∧
    (crit ≤ val → color valStr val warn crit false = esc 31 valStr) := by
  refine ⟨rfl, fun h1 => ?_, fun h1 h2 => ?_, fun h1 => ?_⟩
  · have : ¬ crit ≤ val := not_le.mpr (lt_of_lt_of_le h1 h)
    have : ¬ warn ≤ val := not_le.mpr h1
    simp [color, *]
  · have : ¬ crit ≤ val := not_le.mpr h2
    simp [color, *]
  · simp [color, h1]

/-- C7 witness: value 75 against thresholds (70, 90) gets the warning
marker. -/
theorem c7_color_thresholds_inst : color "75" 75 70 90 false = esc 33 "75" :=
  (c7_color_thresholds "75" 75 70 90 (by norm_num)).2.2.1 (by norm_num) (by norm_num)

/-- C8: whenever the OS reports `available ≤ total` bytes, the RAM reader's
`used` (megabytes, derived as `total - available` floor-divided by `1024²`)
is at most its `total` — truncating division preserves the inequality. -/
theorem c8_used_le_total (vm : VirtualMemory) (mi : Option MemInfo)
    (h : vm.available ≤ vm.total) :
    (get_ram_usage vm mi).used ≤ (get_ram_usage vm mi).total := by
  unfold get_ram_usage
  simp only
  rw [show ((vm.total : Int) - (vm.available : Int)) = ((vm.total - vm.available : Nat) : Int)
        from (Nat.cast_sub h).symm,
      show ((1024 ^ 2 : Int)) = ((1024 ^ 2 : Nat) : Int) by norm_num,
      fdiv_natCast, fdiv_natCast]
  exact Int.ofNat_le.mpr (Nat.div_le_div_right (Nat.sub_le _ _))

/-- C8 witness: `c8_used_le_total` on the 2 GiB / 1 GiB sample. -/
theorem c8_used_le_total_inst :
    (get_ram_usage vm0 none).used ≤ (get_ram_usage vm0 none).total :=
  c8_used_le_total vm0 none (by decide)

/-- C9: with `--no-cpu --no-cpu-temp --no-ram --no-zram --no-swap` (and any
choice of the remaining flags), no reader is consulted, the zram placeholder
is not emitted, and the printed line is empty, for every world state. -/
theorem c9_all_disabled (m r s rc : Bool) (w : World) :
    main' ⟨m, r, s, true, true, true, rc, true, true⟩ w = some "" := rfl

/-- C10: the zram reader can return a pair whose original size is zero — the
primary path checks positivity of the original size in bytes but returns it
floor-divided by 1024 — and then a `--saved` run divides by zero: with the
single device `zram0` reading 2048 compressed / 512 original bytes, the
reader returns `(2, 0)`, the saved computation raises `ZeroDivisionError`
(`savedPart … = some none`), and `main` crashes without printing
(`main' … = none`). -/
theorem c10_zero_original :
    get_zram_usage ["zram0"] df10 (some []) = some (2, 0) ∧
    savedPart cfg10 2 0 = some none ∧
    main' cfg10 w10 = none := by
  have hz : get_zram_usage ["zram0"] df10 (some []) = some (2, 0) := by decide
  refine ⟨hz, ?_, ?_⟩
  · simp [savedPart, pyDiv, cfg10]
  · simp [main', output_parts, readZram, zramPart, zram_str, cfg10, w10, hz,
      ratioPart, savedPart, pyDiv]
